import Mathlib

/-
Verification of the post-discovery and validation engine of the
facebook_scraping repository.

The development shallowly embeds the decision core of
src/strategies/facebook_scraper.py and src/database/database.py:

* a DOM element handle is a record of the attributes the code reads
  (`is_displayed()`, `.text`, and the attributes fetched with
  `get_attribute`), and a candidate container carries its `role`,
  `data-testid` and `class` attributes plus a query function standing for
  `find_elements(By.CSS_SELECTOR, sel)` on a fixed DOM snapshot;
* `isActualPost` embeds `FacebookUIScraper._is_actual_post`;
* `extractContentData` embeds `FacebookUIScraper.extract_content_data`;
* `processContainer`, `processCycleE` and `loopE` embed the body of
  `FacebookUIScraper.scrape_posts` (the scroll-find-capture loop), with
  collaborator failures modelled by `Except` in the places the Python
  wraps in try/except;
* `save_posts` embeds `DatabaseManager.save_posts` over a list model of
  the SQLite `posts` table (`post_id TEXT UNIQUE`, INSERT OR IGNORE).

Side effects that cannot change the pure decision outcome on a fixed
snapshot (logging, sleeps, the expand-button click) are not modelled;
time stamps are left out of the record shape for the same reason.
-/

namespace FacebookScraping

/-- A DOM element handle, restricted to what the scraper reads from it:
`is_displayed()`, `.text`, and the attributes it fetches by name. -/
structure Element where
  displayed : Bool
  text : String
  src : Option String := none
  alt : Option String := none
  title : Option String := none
  cls : Option String := none
  href : Option String := none
  ariaLabel : Option String := none
deriving DecidableEq

/-- A candidate post container: its own attributes as the code reads them
(`get_attribute("role"/"data-testid"/"class")`, `none` = attribute absent)
plus `find_elements(By.CSS_SELECTOR, sel)` on the fixed DOM snapshot. -/
structure Container where
  role : Option String := none
  data_testid : Option String := none
  class_attr : Option String := none
  query : String → List Element

/-- Occurrence of `pat` as a contiguous sublist (Python `pat in s`). -/
def subSeq (pat : List Char) : List Char → Bool
  | [] => pat.isEmpty
  | c :: rest => pat.isPrefixOf (c :: rest) || subSeq pat rest

/-- Python `pat in s` on strings. -/
def strContainsSub (s pat : String) : Bool := subSeq pat.data s.data

/-- Python falsiness of an optional string (`not x`): absent or empty. -/
def strFalsy : Option String → Bool
  | none => true
  | some s => s.isEmpty

/-- Python truthiness of an optional string (`if x:`). -/
def pyTruthy : Option String → Bool
  | none => false
  | some s => !s.isEmpty

/-- Python `x or d` for an optional string `x` and default `d`. -/
def pyOr (o : Option String) (d : String) : String :=
  match o with
  | none => d
  | some s => if s.isEmpty then d else s

/-- `modern_post_classes` from `_is_actual_post`. -/
def modernPostClasses : List String :=
  ["userContentWrapper", "du4w35lb", "k4urcfbm", "l9j0dhe7", "sjgh65i0",
   "xd9ej83", "x162z183", "xsag5q8", "xf7dkkf"]

/-- `post_message_selectors` from `_is_actual_post`. -/
def postMessageSelectors : List String :=
  ["[data-testid='post_message']", "[data-testid='message']",
   "div[data-testid='post_message']", "div[data-testid='message']"]

/-- `author_selectors` from `_is_actual_post`. -/
def authorSelectors : List String :=
  ["h3 a", "a[class*='x1i10hfl']", "[data-testid='post_author']",
   "[data-testid='author']", "[data-testid='user_name']",
   "a[href*='/profile.php']", "a[href*='/']"]

/-- `non_post_indicators` from `_is_actual_post`. -/
def nonPostIndicators : List String :=
  ["[data-testid='comment']", "[data-testid='reply']",
   "[data-testid='comment_reply']", "div[aria-label*='comment']",
   "div[aria-label*='reply']", "[data-testid='UFI2Comment']",
   "[data-testid='UFI2Reply']"]

/-- `engagement_selectors` from `_is_actual_post`. -/
def engagementSelectors : List String :=
  ["[data-testid='UFI2ReactionsCount']", "[data-testid='UFI2CommentsCount']",
   "[data-testid='UFI2SharesCount']", "[aria-label*='reaction']",
   "[aria-label*='comment']", "[aria-label*='share']"]

/-- The `for selector in sels: if container.find_elements(...): flag = True`
pattern of `_is_actual_post`: some selector matches at least one element
(element visibility is not consulted). -/
def hasAnyMatch (c : Container) (sels : List String) : Bool :=
  sels.any (fun sel => !(c.query sel).isEmpty)

/-- `FacebookUIScraper._is_actual_post` (src/strategies/facebook_scraper.py,
lines 395-501), on the non-raising path. -/
def isActualPost (c : Container) : Bool :=
  let class_attr := (c.class_attr).getD ""
  if (c.role != some "article") &&
      (strFalsy c.data_testid ||
        !(strContainsSub ((c.data_testid).getD "") "post")) then
    false
  else
    let hasModernPostClass :=
      modernPostClasses.any (fun cls => strContainsSub class_attr cls)
    if !(hasAnyMatch c postMessageSelectors) then
      false
    else if !(hasAnyMatch c authorSelectors) then
      false
    else if hasAnyMatch c nonPostIndicators then
      false
    else
      hasModernPostClass || hasAnyMatch c engagementSelectors

/-- Characters stripped by Python `str.strip()` (the whitespace the
scraped texts can contain). -/
def isSpaceChar (c : Char) : Bool :=
  c = ' ' || c = '\t' || c = '\n' || c = '\r'

/-- Drop leading stripped characters. -/
def dropLeading : List Char → List Char
  | [] => []
  | c :: rest => if isSpaceChar c then dropLeading rest else c :: rest

/-- Python `s.strip()`. -/
def pyStrip (s : String) : String :=
  String.mk (((dropLeading s.data).reverse |> dropLeading).reverse)

/-- `post_text_selectors` from `extract_content_data`. -/
def postTextSelectors : List String :=
  ["div.xdj266r.x14z9mp.xat24cr.x1lziwak.x1vvkbs.x126k92a",
   "div[data-testid='post_message']", "div[data-testid='message']"]

/-- The inner loop of the post-text extraction: first displayed element
whose stripped text is non-empty wins (`break` inside `if text_content:`). -/
def firstVisibleText : List Element → Option String
  | [] => none
  | e :: rest =>
    if e.displayed then
      (if !(pyStrip e.text).isEmpty then some (pyStrip e.text)
       else firstVisibleText rest)
    else firstVisibleText rest

/-- The outer loop of the post-text extraction: selectors tried in order,
stopping at the first that yields a text (`if content_data["post_text"]:
break`). -/
def extractPostTextFrom (c : Container) : List String → Option String
  | [] => none
  | sel :: rest =>
    match firstVisibleText (c.query sel) with
    | some t => some t
    | none => extractPostTextFrom c rest

/-- The `post_text` field produced by `extract_content_data`
(src/strategies/facebook_scraper.py, lines 650-672). -/
def extractPostText (c : Container) : Option String :=
  extractPostTextFrom c postTextSelectors

/-- One entry of `content_data["images"]`: either image info
(src/alt/title/class keys) or link info (href/text/aria_label/class keys). -/
structure ImageEntry where
  src : Option String := none
  alt : Option String := none
  title : Option String := none
  cls : Option String := none
  href : Option String := none
  text : Option String := none
  ariaLabel : Option String := none
deriving DecidableEq

/-- `image_container_selectors` from `extract_content_data`. -/
def imageContainerSelectors : List String :=
  ["div.x1i10hfl.xjbqb8w.x1ejq31n.x13faqbe.x1vvkbs.x126k92a.x193iq5w",
   "div.x17z8epw.x579bpy.x1s688f.x2b8uid", "img[src*='scontent']",
   "img[data-visualcompletion='media-vc-image']"]

/-- `image_link_selectors` from `extract_content_data`. -/
def imageLinkSelectors : List String :=
  ["a[class*='x1i10hfl'][class*='x1qjc9v5'][role='link']",
   "a[href*='photo']", "a[href*='story_fbid']"]

/-- The `image_info` dict built for a displayed element whose `src` is a
Facebook CDN URL. -/
def imageEntryOf (e : Element) : ImageEntry :=
  { src := e.src,
    alt := some (pyOr e.alt "No alt text"),
    title := some (pyOr e.title "No title"),
    cls := some (pyOr e.cls "unknown") }

/-- Image extraction inner loop of `extract_content_data`. -/
def extractImagesFromElems : List Element → List ImageEntry → List ImageEntry
  | [], acc => acc
  | e :: rest, acc =>
    if e.displayed then
      (if pyTruthy e.src && strContainsSub ((e.src).getD "") "scontent" then
        extractImagesFromElems rest (acc ++ [imageEntryOf e])
       else extractImagesFromElems rest acc)
    else extractImagesFromElems rest acc

/-- Image extraction of `extract_content_data`: every selector's matches
are scanned, appending in document order. -/
def extractImages (c : Container) : List ImageEntry :=
  imageContainerSelectors.foldl
    (fun acc sel => extractImagesFromElems (c.query sel) acc) []

/-- The `link_info` dict built for a photo/story link element. -/
def linkEntryOf (e : Element) (h : String) : ImageEntry :=
  { href := some h,
    text := some (pyStrip e.text),
    ariaLabel := some (pyOr e.ariaLabel ""),
    cls := some (pyOr e.cls "unknown") }

/-- Image-link extraction inner loop of `extract_content_data`, with the
dedup-by-href check against the entries collected so far. -/
def extractLinksFromElems : List Element → List ImageEntry → List ImageEntry
  | [], acc => acc
  | e :: rest, acc =>
    if e.displayed then
      match e.href with
      | some h =>
        if !h.isEmpty && (strContainsSub h "photo" ||
            strContainsSub h "story_fbid") then
          (if !(acc.any (fun img => img.href == some h)) then
            extractLinksFromElems rest (acc ++ [linkEntryOf e h])
           else extractLinksFromElems rest acc)
        else extractLinksFromElems rest acc
      | none => extractLinksFromElems rest acc
    else extractLinksFromElems rest acc

/-- Image-link extraction of `extract_content_data`. -/
def extractImageLinks (c : Container) (init : List ImageEntry) :
    List ImageEntry :=
  imageLinkSelectors.foldl
    (fun acc sel => extractLinksFromElems (c.query sel) acc) init

/-- The content record built by `extract_content_data` (the extraction
timestamp, pure I/O metadata, is left out). -/
structure ContentData where
  post_text : Option String
  images : List ImageEntry
deriving DecidableEq

/-- `FacebookUIScraper.extract_content_data`
(src/strategies/facebook_scraper.py, lines 638-760): `None` when neither
a post text nor any image/link was found. -/
def extractContentData (c : Container) : Option ContentData :=
  let t := extractPostText c
  let imgs := extractImageLinks c (extractImages c)
  if pyTruthy t || !imgs.isEmpty then
    some { post_text := t, images := imgs }
  else
    none

/-- `wait_selectors` from `_wait_for_container_loaded`. -/
def waitSelectors : List String :=
  ["[data-testid='post_message']", "[data-testid='message']", "h3 a",
   "a[class*='x1i10hfl']", "[data-testid='post_author']",
   "[data-testid='author']"]

/-- `FacebookUIScraper._wait_for_container_loaded` on a fixed snapshot:
some wait selector matches an element that is displayed (the second pass
after the delay re-runs the same check and cannot change the outcome). -/
def containerLoaded (c : Container) : Bool :=
  waitSelectors.any (fun sel => (c.query sel).any (fun e => e.displayed))

/-- Python `f"{n:03d}"`. -/
def pad3 (n : Nat) : String :=
  let s := toString n
  if s.length < 3 then String.mk (List.replicate (3 - s.length) '0') ++ s
  else s

/-- One entry of the `posts` accumulator of `scrape_posts` (the
`scraped_at` wall-clock stamp is left out). -/
structure PostData where
  post_id : String
  screenshot_path : String
  is_valid_post : Bool
  role : String
  data_testid : String
  class_attr : String
  content_data : Option ContentData
deriving DecidableEq

/-- The `post_data` dict appended by `scrape_posts` when the container at
accumulator length `n` was captured at `path`. -/
def mkPostData (c : Container) (n : Nat) (path : String)
    (content : Option ContentData) : PostData :=
  { post_id := "post_" ++ pad3 (n + 1),
    screenshot_path := path,
    is_valid_post := true,
    role := pyOr c.role "no-role",
    data_testid := pyOr c.data_testid "no-testid",
    class_attr := pyOr c.class_attr "no-class",
    content_data := content }

/-- The capture-then-append step of `scrape_posts`: `capture` is the
outcome of `_capture_screenshot_with_wait`, and the append is guarded by
Python truthiness of the returned path (`if screenshot_path:`). -/
def captureStep (capture : Container → Option String) (c : Container)
    (n : Nat) (content : Option ContentData) : Option PostData :=
  match capture c with
  | some path => if !path.isEmpty then some (mkPostData c n path content)
                 else none
  | none => none

/-- The per-container body of `scrape_posts`
(src/strategies/facebook_scraper.py, lines 264-355) on the non-raising
path: wait for the container, extract content, then either consult the
classifier (`validate_posts=True`) or capture unconditionally
(`validate_posts=False`). `n` is the current accumulator length. -/
def processContainer (validate : Bool) (classify : Container → Bool)
    (capture : Container → Option String) (c : Container) (n : Nat) :
    Option PostData :=
  if containerLoaded c then
    (let content := extractContentData c
     if validate then
       (if classify c then captureStep capture c n content else none)
     else captureStep capture c n content)
  else none

/-- Collaborator failures (stale handles, navigation errors) raised by the
remote browser protocol. -/
abbrev Err := String

/-- The container loop of one scroll cycle: stop as soon as the target is
reached (`if len(posts) >= max_posts: break`); a candidate whose
processing raises is skipped and the loop continues (the per-container
try/except of lines 357-361). -/
def processCycleE (step : Container → Nat → Except Err (Option PostData))
    (maxPosts : Nat) : List PostData → List Container → List PostData
  | posts, [] => posts
  | posts, c :: cs =>
    if maxPosts ≤ posts.length then posts
    else
      match step c posts.length with
      | Except.ok (some r) => processCycleE step maxPosts (posts ++ [r]) cs
      | Except.ok none => processCycleE step maxPosts posts cs
      | Except.error _ => processCycleE step maxPosts posts cs

/-- The container discovery of one cycle: a failure of the feed query is
caught and yields no containers (the try/except of lines 235-254). -/
def cycleContainers (find : Nat → Except Err (List Container)) (k : Nat) :
    List Container :=
  match find k with
  | Except.ok l => l
  | Except.error _ => []

/-- The scroll-search loop of `scrape_posts` (lines 227-372):
`while len(posts) < max_posts and scroll_attempts < max_scroll_attempts`,
one cycle of container processing, then scroll (which may raise — the
scroll is outside every inner try/except, so its failure propagates) or
break once the target is reached. `fuel` bounds the recursion; it is
spent only when `attempts` grows, so `maxScroll + 1` initial fuel is
never exhausted. -/
def loopE (step : Container → Nat → Except Err (Option PostData))
    (find : Nat → Except Err (List Container))
    (scroll : Nat → Except Err Unit) (maxPosts maxScroll : Nat) :
    Nat → List PostData → Nat → Except Err (List PostData × Nat)
  | 0, posts, attempts => Except.ok (posts, attempts)
  | fuel + 1, posts, attempts =>
    if posts.length < maxPosts ∧ attempts < maxScroll then
      (let posts2 := processCycleE step maxPosts posts
         (cycleContainers find attempts)
       if posts2.length < maxPosts then
         match scroll attempts with
         | Except.ok _ =>
           loopE step find scroll maxPosts maxScroll fuel posts2
             (attempts + 1)
         | Except.error e => Except.error e
       else Except.ok (posts2, attempts))
    else Except.ok (posts, attempts)

/-- One full run of the scroll-search loop from the initial state
`posts = [], scroll_attempts = 0`, returning the accumulator and the
number of scroll attempts performed. -/
def scrapeRun (step : Container → Nat → Except Err (Option PostData))
    (find : Nat → Except Err (List Container))
    (scroll : Nat → Except Err Unit) (maxPosts maxScroll : Nat) :
    Except Err (List PostData × Nat) :=
  loopE step find scroll maxPosts maxScroll (maxScroll + 1) [] 0

/-- `scrape_posts` seen from its caller: the outer try/except of lines
199-393 turns any escaped failure into an empty list. -/
def scrapePostsE (step : Container → Nat → Except Err (Option PostData))
    (find : Nat → Except Err (List Container))
    (scroll : Nat → Except Err Unit) (maxPosts maxScroll : Nat) :
    List PostData :=
  match scrapeRun step find scroll maxPosts maxScroll with
  | Except.ok (l, _) => l
  | Except.error _ => []

/-- `max_scroll_attempts` of `scrape_posts` (line 229). -/
def maxScrollAttempts : Nat := 10

/-- `FacebookUIScraper.scrape_posts` with its concrete per-container body
(no exception inside the body) and the hard-coded scroll budget. -/
def scrape_posts (validate : Bool) (capture : Container → Option String)
    (find : Nat → Except Err (List Container))
    (scroll : Nat → Except Err Unit) (max_posts : Nat) : List PostData :=
  scrapePostsE
    (fun c n => Except.ok (processContainer validate isActualPost capture c n))
    find scroll max_posts maxScrollAttempts

/-- Whitespace tokenisation used by the spec-modelled count parser. -/
def tokensAux : List Char → List Char → List (List Char)
  | [], acc => if acc.isEmpty then [] else [acc.reverse]
  | c :: rest, acc =>
    if isSpaceChar c then
      (if acc.isEmpty then tokensAux rest []
       else acc.reverse :: tokensAux rest [])
    else tokensAux rest (c :: acc)

/-- Whitespace-separated tokens of a string. -/
def tokensOf (s : String) : List String :=
  (tokensAux s.data []).map String.mk

/-- A token that is a comma-grouped integer: only digits and commas, with
at least one digit. -/
def isCountToken (t : String) : Bool :=
  !(t.data).isEmpty &&
    (t.data).all (fun ch => ch.isDigit || ch = ',') &&
    (t.data).any (fun ch => ch.isDigit)

/-- Decimal value of a digit run. -/
def digitsToNat (l : List Char) : Nat :=
  l.foldl (fun n ch => n * 10 + (ch.toNat - ('0').toNat)) 0

/-- Modelled from the spec: the numeric engagement-count parser of the
Field Extractor (spec §4.3 and Scenario E). The parser itself is not
under src/ — only its persistence declarations are (the
`likes_count/comments_count/shares_count` columns and their 0 defaults in
src/database/database.py). Following the spec's words, the first
whitespace-separated token consisting only of digits and commas is taken
as the count (commas dropped); abbreviated counts such as "1.2K" are not
expanded and yield 0. -/
def parseEngagementCount (text : String) : Nat :=
  match (tokensOf text).find? isCountToken with
  | some tok => digitsToNat ((tok.data).filter (fun ch => ch ≠ ','))
  | none => 0

/-- An input record handed to `DatabaseManager.save_posts`: the values
`post.get(key)` can yield for the keys the INSERT reads (`none` models an
absent key, so the counts get their `post.get(key, 0)` default). -/
structure PostInput where
  post_id : Option String := none
  author : Option String := none
  content : Option String := none
  timestamp : Option String := none
  likes_count : Option Int := none
  comments_count : Option Int := none
  shares_count : Option Int := none
  post_url : Option String := none
  group_name : Option String := none
  scraped_at : Option String := none
deriving DecidableEq

/-- A row of the SQLite `posts` table as the INSERT writes it (the
autoincrement id and `created_at` default are managed by SQLite and not
part of the insert-or-ignore decision). -/
structure DbRow where
  post_id : Option String
  author : Option String
  content : Option String
  timestamp : Option String
  likes_count : Int
  comments_count : Int
  shares_count : Int
  post_url : Option String
  group_name : Option String
  scraped_at : Option String
deriving DecidableEq

/-- The tuple bound by the INSERT of `save_posts` (lines 64-83). -/
def mkRow (p : PostInput) : DbRow :=
  { post_id := p.post_id,
    author := p.author,
    content := p.content,
    timestamp := p.timestamp,
    likes_count := (p.likes_count).getD 0,
    comments_count := (p.comments_count).getD 0,
    shares_count := (p.shares_count).getD 0,
    post_url := p.post_url,
    group_name := p.group_name,
    scraped_at := p.scraped_at }

/-- `INSERT OR IGNORE` against the `post_id TEXT UNIQUE` constraint: a row
whose `post_id` already appears is dropped; a NULL `post_id` never
conflicts (SQLite UNIQUE admits any number of NULLs). -/
def insertOrIgnore (db : List DbRow) (row : DbRow) : List DbRow :=
  match row.post_id with
  | none => db ++ [row]
  | some pid =>
    if db.any (fun r => r.post_id == some pid) then db else db ++ [row]

/-- The per-post loop of `save_posts`: execute the insert, then
`saved_count += 1` (the increment runs whether or not the insert was
ignored; in this model the execute itself cannot raise). -/
def savePostsGo : List DbRow → List PostInput → Nat → List DbRow × Nat
  | db, [], n => (db, n)
  | db, p :: rest, n => savePostsGo (insertOrIgnore db (mkRow p)) rest (n + 1)

/-- `DatabaseManager.save_posts` (src/database/database.py, lines 52-99)
over the table state: returns the new table and the reported count. -/
def save_posts (db : List DbRow) (posts : List PostInput) :
    List DbRow × Nat :=
  if posts.isEmpty then (db, 0) else savePostsGo db posts 0

/-- Rows of the table carrying a given non-null `post_id`. -/
def countId (db : List DbRow) (pid : String) : Nat :=
  (db.filter (fun r => r.post_id == some pid)).length

/-- A container with every element's visibility overridden: the DOM
snapshot with the same structure but different `is_displayed()` answers. -/
def withDisplayed (b : Bool) (c : Container) : Container :=
  { c with query := fun sel =>
      (c.query sel).map (fun e => { e with displayed := b }) }

/-! Concrete fixtures used by witnesses and counterexamples. -/

/-- A bare container: no attributes, no matching descendants. -/
def cPlain : Container := { query := fun _ => [] }

/-- A visible author link (`h3 a`). -/
def eAuthorW : Element := { displayed := true, text := "Author Name" }

/-- A post-message element that is present but not displayed. -/
def eHiddenMsg : Element := { displayed := false, text := "hidden message" }

/-- A visible post-message element. -/
def eMsgW : Element := { displayed := true, text := "A visible message" }

/-- A visible comment marker. -/
def eCommentW : Element := { displayed := true, text := "a comment" }

/-- An article container whose only post-message element is not displayed,
with a modern post class and an author link. -/
def cHidden : Container :=
  { role := some "article",
    class_attr := some "du4w35lb",
    query := fun sel =>
      if sel = "[data-testid='post_message']" then [eHiddenMsg]
      else if sel = "h3 a" then [eAuthorW]
      else [] }

/-- An article container passing the role, message and author gates but
also containing a `[data-testid='comment']` descendant. -/
def cComment : Container :=
  { role := some "article",
    class_attr := some "du4w35lb",
    query := fun sel =>
      if sel = "[data-testid='post_message']" then [eMsgW]
      else if sel = "h3 a" then [eAuthorW]
      else if sel = "[data-testid='comment']" then [eCommentW]
      else [] }

/-- A visible text node whose stripped text is shorter than 10 characters
and is UI chrome ("Like"). -/
def eLike : Element := { displayed := true, text := "Like" }

/-- A visible text node with a long genuine post body. -/
def eLong : Element :=
  { displayed := true, text := "a genuinely long real post body" }

/-- A container whose first post-text selector matches the short UI-chrome
node first and a long genuine text after it. -/
def cShort : Container :=
  { query := fun sel =>
      if sel = "div.xdj266r.x14z9mp.xat24cr.x1lziwak.x1vvkbs.x126k92a" then
        [eLike, eLong]
      else [] }

/-- A visible genuine post text node. -/
def eGoodText : Element :=
  { displayed := true, text := "Hello world, this is a real post" }

/-- A container carrying one genuine visible post text. -/
def cGood : Container :=
  { query := fun sel =>
      if sel = "div[data-testid='post_message']" then [eGoodText]
      else [] }

/-- The content record extracted from `cGood`. -/
def dGood : ContentData :=
  { post_text := some "Hello world, this is a real post", images := [] }

/-- An article container passing gates 1-4 but failing the final
acceptance gate 5: no modern post class and no engagement signal. -/
def cG5 : Container :=
  { role := some "article",
    class_attr := some "x",
    query := fun sel =>
      if sel = "[data-testid='post_message']" then [eMsgW]
      else if sel = "h3 a" then [eAuthorW]
      else [] }

/-- A capture collaborator that always succeeds. -/
def capG5 : Container → Option String :=
  fun _ => some "facebook_screenshots/post_001.png"

/-- A capture collaborator that always fails (returns `None`). -/
def capNoneW : Container → Option String := fun _ => none

/-- A loaded container with only an author link. -/
def cW : Container :=
  { query := fun sel => if sel = "h3 a" then [eAuthorW] else [] }

/-- A capture collaborator returning a fixed path. -/
def capW : Container → Option String :=
  fun _ => some "facebook_screenshots/post_001_20250101.png"

/-- The record `scrape_posts` accumulates for `cW` under `capW` with
validation disabled. -/
def rW : PostData :=
  { post_id := "post_001",
    screenshot_path := "facebook_screenshots/post_001_20250101.png",
    is_valid_post := true,
    role := "no-role",
    data_testid := "no-testid",
    class_attr := "no-class",
    content_data := none }

/-- A per-container step that finds nothing. -/
def stepNoneW : Container → Nat → Except Err (Option PostData) :=
  fun _ _ => Except.ok none

/-- A per-container step that always raises. -/
def stepErrW : Container → Nat → Except Err (Option PostData) :=
  fun _ _ => Except.error "stale element reference"

/-- Container discovery that never finds containers. -/
def findEmptyW : Nat → Except Err (List Container) :=
  fun _ => Except.ok []

/-- Container discovery revealing `cW` in the first cycle only. -/
def find1W : Nat → Except Err (List Container) :=
  fun k => if k = 0 then Except.ok [cW] else Except.ok []

/-- A scroll collaborator that always succeeds. -/
def scrollOkW : Nat → Except Err Unit := fun _ => Except.ok ()

/-- A scroll collaborator that always raises. -/
def scrollErrW : Nat → Except Err Unit :=
  fun _ => Except.error "browser handle lost"

/-- A container reaching the negative gate with everything else set. -/
def cBadW : Container := { query := fun _ => [] }

/-- An input record with a fixed `post_id` (remaining keys absent). -/
def pDupW : PostInput := { post_id := some "post_001" }

/-- An input record with `post_id` "w1". -/
def pW : PostInput := { post_id := some "w1" }

/-! Theorems. -/

theorem isEmpty_map (f : Element → Element) (l : List Element) :
    (l.map f).isEmpty = l.isEmpty := by
  cases l <;> rfl

theorem hasAnyMatch_withDisplayed (b : Bool) (c : Container)
    (sels : List String) :
    hasAnyMatch (withDisplayed b c) sels = hasAnyMatch c sels := by
  unfold hasAnyMatch withDisplayed
  simp only [isEmpty_map]

theorem withDisplayed_role (b : Bool) (c : Container) :
    (withDisplayed b c).role = c.role := rfl

theorem withDisplayed_testid (b : Bool) (c : Container) :
    (withDisplayed b c).data_testid = c.data_testid := rfl

theorem withDisplayed_class (b : Bool) (c : Container) :
    (withDisplayed b c).class_attr = c.class_attr := rfl

/-- C1: a container whose `role` attribute is not "article" and whose
`data-testid` attribute does not contain the substring "post" (in
particular when the attribute is absent) is rejected by
`_is_actual_post`, whatever its other attributes and query results. -/
theorem fb_C1_primary_gate (c : Container)
    (h1 : c.role ≠ some "article")
    (h2 : strContainsSub ((c.data_testid).getD "") "post" = false) :
    isActualPost c = false := by
  have hb : (c.role != some "article") = true := bne_iff_ne.mpr h1
  unfold isActualPost
  cases htd : c.data_testid with
  | none => simp [htd, hb, strFalsy]
  | some s =>
    rw [htd] at h2
    simp only [Option.getD] at h2 ⊢
    simp [hb, h2]

/-- Witness for C1 at a container with no role and no testid. -/
theorem fb_C1_witness :
    cPlain.role ≠ some "article" ∧
    strContainsSub ((cPlain.data_testid).getD "") "post" = false ∧
    isActualPost cPlain = false :=
  ⟨by decide, by decide, fb_C1_primary_gate cPlain (by decide) (by decide)⟩

/-- C2: a container with any descendant matching one of the negative-gate
selectors (`non_post_indicators`) is rejected by `_is_actual_post`, no
matter which positive gates pass. -/
theorem fb_C2_negative_gate (c : Container)
    (h : hasAnyMatch c nonPostIndicators = true) :
    isActualPost c = false := by
  unfold isActualPost
  split_ifs <;> simp_all

/-- Witness for C2 at a container passing the role, message and author
gates and carrying a comment marker. -/
theorem fb_C2_witness :
    cComment.role = some "article" ∧
    hasAnyMatch cComment postMessageSelectors = true ∧
    hasAnyMatch cComment authorSelectors = true ∧
    hasAnyMatch cComment nonPostIndicators = true ∧
    isActualPost cComment = false :=
  ⟨by decide, by decide, by decide, by decide,
   fb_C2_negative_gate cComment (by decide)⟩

/-- C5 counterexample: `cHidden`'s only post-message element exists but is
not displayed, yet `_is_actual_post` accepts the container — the content
gate tests presence only, not visibility, so the claimed rejection with
`missing_message_content` does not happen. -/
theorem fb_C5_counterexample :
    cHidden.query "[data-testid='post_message']" = [eHiddenMsg] ∧
    eHiddenMsg.displayed = false ∧
    cHidden.query "[data-testid='message']" = [] ∧
    cHidden.query "div[data-testid='post_message']" = [] ∧
    cHidden.query "div[data-testid='message']" = [] ∧
    isActualPost cHidden = true := by decide

/-- C5 (amended): the positive content gate of `_is_actual_post` requires
only that some post-message selector match at least one element, visible
or not: a container with no matching element at all is rejected, and the
classifier's verdict is invariant under changing every element's
visibility. -/
theorem fb_C5_message_gate_presence (c : Container) (b : Bool)
    (h : ∀ sel, sel ∈ postMessageSelectors → c.query sel = []) :
    isActualPost c = false ∧
    isActualPost (withDisplayed b c) = isActualPost c := by
  constructor
  · have hm : hasAnyMatch c postMessageSelectors = false := by
      unfold hasAnyMatch
      rw [List.any_eq_false]
      intro sel hsel
      rw [h sel hsel]
      simp
    unfold isActualPost
    split_ifs <;> simp_all
  · unfold isActualPost
    rw [hasAnyMatch_withDisplayed, hasAnyMatch_withDisplayed,
        hasAnyMatch_withDisplayed, hasAnyMatch_withDisplayed,
        withDisplayed_role, withDisplayed_testid, withDisplayed_class]

/-- Witness for the amended C5 at the bare container. -/
theorem fb_C5_witness :
    (∀ sel, sel ∈ postMessageSelectors → cPlain.query sel = []) ∧
    isActualPost cPlain = false ∧
    isActualPost (withDisplayed true cPlain) = isActualPost cPlain :=
  ⟨by decide, (fb_C5_message_gate_presence cPlain true (by decide)).1,
   (fb_C5_message_gate_presence cPlain true (by decide)).2⟩

theorem firstVisibleText_spec :
    ∀ (es : List Element) (t : String), firstVisibleText es = some t →
      t.isEmpty = false ∧
      ∃ e, e ∈ es ∧ e.displayed = true ∧ pyStrip e.text = t := by
  intro es
  induction es with
  | nil => intro t h; cases h
  | cons e rest ih =>
    intro t h
    unfold firstVisibleText at h
    by_cases hd : e.displayed = true
    · rw [if_pos hd] at h
      by_cases he : (pyStrip e.text).isEmpty = true
      · rw [if_neg (by simp [he])] at h
        obtain ⟨hne, e2, hmem, hdisp, hstrip⟩ := ih t h
        exact ⟨hne, e2, List.mem_cons_of_mem e hmem, hdisp, hstrip⟩
      · rw [if_pos (by simp [Bool.eq_false_iff.mpr he])] at h
        injection h with h
        subst h
        exact ⟨Bool.eq_false_iff.mpr he, e, List.mem_cons_self e rest, hd,
          rfl⟩
    · rw [if_neg hd] at h
      obtain ⟨hne, e2, hmem, hdisp, hstrip⟩ := ih t h
      exact ⟨hne, e2, List.mem_cons_of_mem e hmem, hdisp, hstrip⟩

theorem extractPostTextFrom_spec (c : Container) :
    ∀ (sels : List String) (t : String),
      extractPostTextFrom c sels = some t →
      t.isEmpty = false ∧
      ∃ sel e, sel ∈ sels ∧ e ∈ c.query sel ∧ e.displayed = true ∧
        pyStrip e.text = t := by
  intro sels
  induction sels with
  | nil => intro t h; cases h
  | cons sel rest ih =>
    intro t h
    unfold extractPostTextFrom at h
    cases hfv : firstVisibleText (c.query sel) with
    | some t2 =>
      rw [hfv] at h
      injection h with h
      subst h
      obtain ⟨hne, e, hmem, hdisp, hstrip⟩ := firstVisibleText_spec _ _ hfv
      exact ⟨hne, sel, e, List.mem_cons_self sel rest, hmem, hdisp, hstrip⟩
    | none =>
      rw [hfv] at h
      obtain ⟨hne, sel2, e, hsel, hmem, hdisp, hstrip⟩ := ih t h
      exact ⟨hne, sel2, e, List.mem_cons_of_mem sel hsel, hmem, hdisp,
        hstrip⟩

/-- C6 counterexample: `cShort`'s first post-text selector matches the
visible 4-character UI-chrome string "Like" first and a long genuine
text after it; `extract_content_data` returns "Like" — shorter than 10
characters, in the UI-chrome lexicon, and not the longest candidate. -/
theorem fb_C6_counterexample :
    extractContentData cShort =
      some { post_text := some "Like", images := [] } ∧
    ("Like").length < 10 ∧
    cShort.query "div.xdj266r.x14z9mp.xat24cr.x1lziwak.x1vvkbs.x126k92a" =
      [eLike, eLong] ∧
    eLong.displayed = true ∧
    10 ≤ (pyStrip eLong.text).length := by decide

/-- C6 (amended): the `post_text` produced by `extract_content_data`,
when present, is a non-empty stripped string and is the text of the first
visible element with non-empty stripped text, in selector order then
document order — no minimum length, no UI-chrome lexicon, and no
preference for the longest candidate apply. -/
theorem fb_C6_post_text_shape (c : Container) (d : ContentData) (t : String)
    (hd : extractContentData c = some d) (ht : d.post_text = some t) :
    t.isEmpty = false ∧
    ∃ sel e, sel ∈ postTextSelectors ∧ e ∈ c.query sel ∧
      e.displayed = true ∧ pyStrip e.text = t := by
  have hpt : extractPostText c = some t := by
    unfold extractContentData at hd
    dsimp only at hd
    split at hd
    · injection hd with hd
      rw [← hd] at ht
      exact ht
    · cases hd
  exact extractPostTextFrom_spec c postTextSelectors t hpt

/-- Witness for the amended C6 at a container with one genuine text. -/
theorem fb_C6_witness :
    extractContentData cGood = some dGood ∧
    dGood.post_text = some "Hello world, this is a real post" ∧
    (("Hello world, this is a real post").isEmpty = false ∧
      ∃ sel e, sel ∈ postTextSelectors ∧ e ∈ cGood.query sel ∧
        e.displayed = true ∧
        pyStrip e.text = "Hello world, this is a real post") :=
  ⟨by decide, by decide,
   fb_C6_post_text_shape cGood dGood "Hello world, this is a real post"
     (by decide) (by decide)⟩

/-- C3: with `validate_posts=False` the per-container body of
`scrape_posts` never consults the classifier — its outcome is the same
whatever classifier function is plugged in — and every loaded container
whose capture succeeds yields a record marked `is_valid_post=True`,
including containers `_is_actual_post` would reject. -/
theorem fb_C3_validation_disabled :
    (∀ (g₁ g₂ : Container → Bool) (capture : Container → Option String)
        (c : Container) (n : Nat),
        processContainer false g₁ capture c n =
          processContainer false g₂ capture c n) ∧
    (∀ (capture : Container → Option String) (c : Container) (n : Nat),
        containerLoaded c = true → pyTruthy (capture c) = true →
        ∃ r, processContainer false isActualPost capture c n = some r ∧
          r.is_valid_post = true) := by
  constructor
  · intro g₁ g₂ capture c n
    rfl
  · intro capture c n hl hc
    unfold processContainer
    rw [if_pos hl]
    unfold captureStep
    cases hcap : capture c with
    | none => rw [hcap] at hc; cases hc
    | some p =>
      rw [hcap] at hc
      simp only [pyTruthy] at hc
      refine ⟨mkPostData c n p (extractContentData c), ?_, rfl⟩
      simp [hc]

/-- Witness for C3 at a container failing the final acceptance gate 5. -/
theorem fb_C3_witness :
    containerLoaded cG5 = true ∧ isActualPost cG5 = false ∧
    ∃ r, processContainer false isActualPost capG5 cG5 0 = some r ∧
      r.is_valid_post = true :=
  ⟨by decide, by decide,
   fb_C3_validation_disabled.2 capG5 cG5 0 (by decide) (by decide)⟩

theorem processCycleE_length_le
    (step : Container → Nat → Except Err (Option PostData)) (N : Nat) :
    ∀ (cs : List Container) (posts : List PostData),
      posts.length ≤ N → (processCycleE step N posts cs).length ≤ N := by
  intro cs
  induction cs with
  | nil => intro posts h; exact h
  | cons c cs ih =>
    intro posts h
    unfold processCycleE
    by_cases hle : N ≤ posts.length
    · rw [if_pos hle]
      exact h
    · rw [if_neg hle]
      cases hstep : step c posts.length with
      | ok o =>
        cases o with
        | some r =>
          refine ih (posts ++ [r]) ?_
          simp only [List.length_append, List.length_singleton]
          omega
        | none => exact ih posts h
      | error e => exact ih posts h

theorem processCycleE_stop
    (step : Container → Nat → Except Err (Option PostData)) (N : Nat)
    (cs : List Container) (posts : List PostData)
    (h : N ≤ posts.length) : processCycleE step N posts cs = posts := by
  cases cs with
  | nil => rfl
  | cons c cs => unfold processCycleE; rw [if_pos h]

theorem loopE_invariant
    (step : Container → Nat → Except Err (Option PostData))
    (find : Nat → Except Err (List Container))
    (scroll : Nat → Except Err Unit) (N M : Nat) :
    ∀ (fuel : Nat) (posts : List PostData) (attempts : Nat)
      (l : List PostData) (a : Nat),
      attempts ≤ M → posts.length ≤ N →
      (attempts < M ∨ posts.length < N) → M < attempts + fuel →
      loopE step find scroll N M fuel posts attempts = Except.ok (l, a) →
      l.length ≤ N ∧ (a < M ↔ l.length = N) := by
  intro fuel
  induction fuel with
  | zero => intro posts attempts l a h1 h2 h3 h4 h5; omega
  | succ fuel ih =>
    intro posts attempts l a h1 h2 h3 h4 h5
    unfold loopE at h5
    dsimp only at h5
    by_cases hc : posts.length < N ∧ attempts < M
    · rw [if_pos hc] at h5
      have hlen2 : (processCycleE step N posts
          (cycleContainers find attempts)).length ≤ N :=
        processCycleE_length_le step N _ posts h2
      by_cases hc2 : (processCycleE step N posts
          (cycleContainers find attempts)).length < N
      · rw [if_pos hc2] at h5
        cases hs : scroll attempts with
        | ok u =>
          rw [hs] at h5
          exact ih _ (attempts + 1) l a (by omega) hlen2 (Or.inr hc2)
            (by omega) h5
        | error e => rw [hs] at h5; cases h5
      · rw [if_neg hc2] at h5
        injection h5 with h5
        injection h5 with h6 h7
        subst h6
        subst h7
        omega
    · rw [if_neg hc] at h5
      injection h5 with h5
      injection h5 with h6 h7
      subst h6
      subst h7
      omega

theorem loopE_empty_find
    (step : Container → Nat → Except Err (Option PostData))
    (scroll : Nat → Except Err Unit) (N M : Nat) :
    ∀ (fuel attempts : Nat),
      (∃ e, loopE step (fun _ => Except.ok []) scroll N M fuel []
          attempts = Except.error e) ∨
      (∃ a, loopE step (fun _ => Except.ok []) scroll N M fuel []
          attempts = Except.ok ([], a)) := by
  intro fuel
  induction fuel with
  | zero => intro attempts; exact Or.inr ⟨attempts, rfl⟩
  | succ fuel ih =>
    intro attempts
    unfold loopE
    dsimp only
    by_cases hc : ([] : List PostData).length < N ∧ attempts < M
    · rw [if_pos hc]
      have hcyc : processCycleE step N []
          (cycleContainers (fun _ => Except.ok ([] : List Container))
            attempts) = [] := rfl
      rw [hcyc]
      rw [if_pos (by simpa using hc.1)]
      cases hs : scroll attempts with
      | ok u => exact ih (attempts + 1)
      | error e => exact Or.inl ⟨e, rfl⟩
    · rw [if_neg hc]
      exact Or.inr ⟨attempts, rfl⟩

/-- C4: a successful run of the scroll-search loop of `scrape_posts`
returns at most `targetCount` records; it stops before performing
`maxScrollAttempts` scrolls exactly when the accumulator reaches the
target; and a run that never finds containers exhausts the budget and
returns the empty list rather than failing. -/
theorem fb_C4_collect_budget :
    (∀ (step : Container → Nat → Except Err (Option PostData))
        (find : Nat → Except Err (List Container))
        (scroll : Nat → Except Err Unit) (N M : Nat)
        (l : List PostData) (a : Nat), 0 < M →
        scrapeRun step find scroll N M = Except.ok (l, a) →
        l.length ≤ N ∧ (a < M ↔ l.length = N)) ∧
    (∀ (step : Container → Nat → Except Err (Option PostData))
        (scroll : Nat → Except Err Unit) (N M : Nat),
        scrapePostsE step (fun _ => Except.ok []) scroll N M = []) := by
  constructor
  · intro step find scroll N M l a hM hrun
    exact loopE_invariant step find scroll N M (M + 1) [] 0 l a
      (by omega) (by simp) (Or.inl hM) (by omega) hrun
  · intro step scroll N M
    unfold scrapePostsE scrapeRun
    rcases loopE_empty_find step scroll N M (M + 1) 0 with ⟨e, he⟩ | ⟨a, ha⟩
    · rw [he]
    · rw [ha]

/-- Witness for C4: finding no containers with target 1 and budget 2
yields a successful empty run after both scrolls. -/
theorem fb_C4_witness :
    scrapeRun stepNoneW findEmptyW scrollOkW 1 2 = Except.ok ([], 2) ∧
    (([] : List PostData).length ≤ 1 ∧
      ((2 : Nat) < 2 ↔ ([] : List PostData).length = 1)) ∧
    scrapePostsE stepNoneW (fun _ => Except.ok []) scrollOkW 1 2 = [] :=
  ⟨by rfl,
   fb_C4_collect_budget.1 stepNoneW findEmptyW scrollOkW 1 2 [] 2
     (by decide) (by rfl),
   fb_C4_collect_budget.2 stepNoneW scrollOkW 1 2⟩

/-- C8: a candidate whose processing raises is skipped and the cycle
continues as if that candidate were absent; a failure of the scroll step
aborts the whole call, which then returns the empty list; and in every
case `scrape_posts` hands its caller a plain list — the erroring runs
return `[]`, the others the accumulator. -/
theorem fb_C8_failure_semantics :
    (∀ (step : Container → Nat → Except Err (Option PostData)) (N : Nat)
        (posts : List PostData) (cbad : Container) (e : Err)
        (cs1 cs2 : List Container),
        (∀ n, step cbad n = Except.error e) →
        processCycleE step N posts (cs1 ++ cbad :: cs2) =
          processCycleE step N posts (cs1 ++ cs2)) ∧
    (∀ (step : Container → Nat → Except Err (Option PostData))
        (find : Nat → Except Err (List Container))
        (scroll : Nat → Except Err Unit) (N M : Nat) (e : Err),
        0 < N → 0 < M → scroll 0 = Except.error e →
        (processCycleE step N [] (cycleContainers find 0)).length < N →
        scrapePostsE step find scroll N M = []) ∧
    (∀ (step : Container → Nat → Except Err (Option PostData))
        (find : Nat → Except Err (List Container))
        (scroll : Nat → Except Err Unit) (N M : Nat),
        (∃ e, scrapeRun step find scroll N M = Except.error e ∧
            scrapePostsE step find scroll N M = []) ∨
        (∃ a, scrapeRun step find scroll N M =
            Except.ok (scrapePostsE step find scroll N M, a))) := by
  refine ⟨?_, ?_, ?_⟩
  · intro step N posts cbad e cs1 cs2 hbad
    induction cs1 generalizing posts with
    | nil =>
      rw [List.nil_append, List.nil_append]
      by_cases h : N ≤ posts.length
      · rw [processCycleE_stop step N _ posts h,
            processCycleE_stop step N _ posts h]
      · unfold processCycleE
        rw [if_neg h, hbad posts.length]
        cases cs2 with
        | nil => rfl
        | cons c cs => rfl
    | cons c cs1 ih =>
      rw [List.cons_append, List.cons_append]
      unfold processCycleE
      by_cases h : N ≤ posts.length
      · rw [if_pos h, if_pos h]
      · rw [if_neg h, if_neg h]
        cases hstep : step c posts.length with
        | ok o =>
          cases o with
          | some r => exact ih (posts ++ [r])
          | none => exact ih posts
        | error e2 => exact ih posts
  · intro step find scroll N M e hN hM hs hlen
    unfold scrapePostsE scrapeRun
    have h1 : loopE step find scroll N M (M + 1) [] 0 = Except.error e := by
      unfold loopE
      dsimp only
      rw [if_pos ⟨by simpa using hN, hM⟩, if_pos hlen, hs]
    rw [h1]
  · intro step find scroll N M
    cases h : scrapeRun step find scroll N M with
    | error e =>
      left
      exact ⟨e, rfl, by unfold scrapePostsE; rw [h]⟩
    | ok p =>
      right
      obtain ⟨l, a⟩ := p
      refine ⟨a, ?_⟩
      have hl : scrapePostsE step find scroll N M = l := by
        unfold scrapePostsE
        rw [h]
      rw [hl]

/-- Witness for C8: an always-raising step leaves the cycle unchanged,
and a failing scroll turns the whole call into an empty list. -/
theorem fb_C8_witness :
    processCycleE stepErrW 3 [] ([] ++ cBadW :: []) =
      processCycleE stepErrW 3 [] ([] ++ []) ∧
    scrapePostsE stepErrW findEmptyW scrollErrW 3 10 = [] :=
  ⟨fb_C8_failure_semantics.1 stepErrW 3 [] cBadW "stale element reference"
     [] [] (fun n => rfl),
   fb_C8_failure_semantics.2.1 stepErrW findEmptyW scrollErrW 3 10
     "browser handle lost" (by decide) (by decide) rfl (by decide)⟩

theorem captureStep_path (capture : Container → Option String)
    (c : Container) (n : Nat) (content : Option ContentData) (r : PostData)
    (h : captureStep capture c n content = some r) :
    r.screenshot_path ≠ "" := by
  unfold captureStep at h
  cases hcap : capture c with
  | none => rw [hcap] at h; cases h
  | some p =>
    rw [hcap] at h
    dsimp only at h
    by_cases hp : p.isEmpty = true
    · rw [if_neg (by simp [hp])] at h
      cases h
    · rw [if_pos (by simp [Bool.eq_false_iff.mpr hp])] at h
      injection h with h
      subst h
      show p ≠ ""
      intro hcontra
      subst hcontra
      exact hp (by decide)

theorem processContainer_path (v : Bool) (g : Container → Bool)
    (capture : Container → Option String) (c : Container) (n : Nat)
    (r : PostData) (h : processContainer v g capture c n = some r) :
    r.screenshot_path ≠ "" := by
  unfold processContainer at h
  split at h
  · dsimp only at h
    split at h
    · split at h
      · exact captureStep_path capture c n _ r h
      · cases h
    · exact captureStep_path capture c n _ r h
  · cases h

theorem processCycleE_preserve (P : PostData → Prop)
    (step : Container → Nat → Except Err (Option PostData)) (N : Nat)
    (hstep : ∀ c n r, step c n = Except.ok (some r) → P r) :
    ∀ (cs : List Container) (posts : List PostData),
      (∀ r ∈ posts, P r) →
      ∀ r ∈ processCycleE step N posts cs, P r := by
  intro cs
  induction cs with
  | nil => intro posts h; exact h
  | cons c cs ih =>
    intro posts h
    unfold processCycleE
    by_cases hle : N ≤ posts.length
    · rw [if_pos hle]
      exact h
    · rw [if_neg hle]
      cases hs : step c posts.length with
      | ok o =>
        cases o with
        | some r0 =>
          refine ih (posts ++ [r0]) ?_
          intro r hr
          rcases List.mem_append.mp hr with hr | hr
          · exact h r hr
          · rcases List.mem_singleton.mp hr with rfl
            exact hstep c posts.length r hs
        | none => exact ih posts h
      | error e => exact ih posts h

theorem loopE_preserve (P : PostData → Prop)
    (step : Container → Nat → Except Err (Option PostData))
    (find : Nat → Except Err (List Container))
    (scroll : Nat → Except Err Unit) (N M : Nat)
    (hstep : ∀ c n r, step c n = Except.ok (some r) → P r) :
    ∀ (fuel : Nat) (posts : List PostData) (attempts : Nat)
      (l : List PostData) (a : Nat),
      (∀ r ∈ posts, P r) →
      loopE step find scroll N M fuel posts attempts = Except.ok (l, a) →
      ∀ r ∈ l, P r := by
  intro fuel
  induction fuel with
  | zero =>
    intro posts attempts l a h hl
    injection hl with hl
    injection hl with h6 h7
    subst h6
    exact h
  | succ fuel ih =>
    intro posts attempts l a h hl
    unfold loopE at hl
    dsimp only at hl
    by_cases hc : posts.length < N ∧ attempts < M
    · rw [if_pos hc] at hl
      have h2 : ∀ r ∈ processCycleE step N posts
          (cycleContainers find attempts), P r :=
        processCycleE_preserve P step N hstep _ posts h
      by_cases hc2 : (processCycleE step N posts
          (cycleContainers find attempts)).length < N
      · rw [if_pos hc2] at hl
        cases hs : scroll attempts with
        | ok u =>
          rw [hs] at hl
          exact ih _ (attempts + 1) l a h2 hl
        | error e => rw [hs] at hl; cases hl
      · rw [if_neg hc2] at hl
        injection hl with hl
        injection hl with h6 h7
        subst h6
        exact h2
    · rw [if_neg hc] at hl
      injection hl with hl
      injection hl with h6 h7
      subst h6
      exact h

/-- C10: every record returned by `scrape_posts` carries a non-empty
`screenshot_path` — with or without validation — and a container whose
capture attempt returns `None` contributes no record at all. -/
theorem fb_C10_screenshot_invariant :
    (∀ (validate : Bool) (capture : Container → Option String)
        (find : Nat → Except Err (List Container))
        (scroll : Nat → Except Err Unit) (N : Nat) (r : PostData),
        r ∈ scrape_posts validate capture find scroll N →
        r.screenshot_path ≠ "") ∧
    (∀ (validate : Bool) (classify : Container → Bool)
        (capture : Container → Option String) (c : Container) (n : Nat),
        capture c = none →
        processContainer validate classify capture c n = none) := by
  constructor
  · intro validate capture find scroll N r hr
    unfold scrape_posts scrapePostsE at hr
    cases hrun : scrapeRun
        (fun c n =>
          Except.ok (processContainer validate isActualPost capture c n))
        find scroll N maxScrollAttempts with
    | error e => rw [hrun] at hr; cases hr
    | ok p =>
      obtain ⟨l, a⟩ := p
      rw [hrun] at hr
      refine loopE_preserve (fun r => r.screenshot_path ≠ "") _ find scroll
        N maxScrollAttempts ?_ (maxScrollAttempts + 1) [] 0 l a
        (by intro r2 hr2; cases hr2) hrun r hr
      intro c n r2 hs
      injection hs with hs
      exact processContainer_path validate isActualPost capture c n r2 hs
  · intro validate classify capture c n hcap
    unfold processContainer captureStep
    rw [hcap]
    simp

/-- Witness for C10: a concrete run producing one record with a non-empty
path, and a failing capture producing no record. -/
theorem fb_C10_witness :
    rW ∈ scrape_posts false capW find1W scrollOkW 1 ∧
    rW.screenshot_path ≠ "" ∧
    processContainer true isActualPost capNoneW cW 0 = none :=
  ⟨by decide,
   fb_C10_screenshot_invariant.1 false capW find1W scrollOkW 1 rW
     (by decide),
   fb_C10_screenshot_invariant.2 true isActualPost capNoneW cW 0 rfl⟩

/-- C7: the engagement-count parser takes the first run of digits and
commas out of the matched text — "1,234 likes" parses to 1234, while the
abbreviated "1.2K" is not expanded and parses to 0. -/
theorem fb_C7_engagement_parse :
    parseEngagementCount "1,234 likes" = 1234 ∧
    parseEngagementCount "1.2K" = 0 := by decide

theorem savePostsGo_count :
    ∀ (posts : List PostInput) (db : List DbRow) (n : Nat),
      (savePostsGo db posts n).2 = n + posts.length := by
  intro posts
  induction posts with
  | nil => intro db n; simp [savePostsGo]
  | cons p rest ih =>
    intro db n
    unfold savePostsGo
    rw [ih]
    simp only [List.length_cons]
    omega

theorem insertOrIgnore_append (db : List DbRow) (row : DbRow) :
    ∃ t, insertOrIgnore db row = db ++ t := by
  unfold insertOrIgnore
  cases row.post_id with
  | none => exact ⟨[row], rfl⟩
  | some pid =>
    dsimp only
    by_cases h : db.any (fun r => r.post_id == some pid) = true
    · rw [if_pos h]
      exact ⟨[], by simp⟩
    · rw [if_neg h]
      exact ⟨[row], rfl⟩

theorem savePostsGo_suffix :
    ∀ (posts : List PostInput) (db : List DbRow) (n : Nat),
      ∃ added, (savePostsGo db posts n).1 = db ++ added := by
  intro posts
  induction posts with
  | nil => intro db n; exact ⟨[], by simp [savePostsGo]⟩
  | cons p rest ih =>
    intro db n
    unfold savePostsGo
    obtain ⟨t, ht⟩ := insertOrIgnore_append db (mkRow p)
    obtain ⟨added, ha⟩ := ih (insertOrIgnore db (mkRow p)) (n + 1)
    refine ⟨t ++ added, ?_⟩
    rw [ha, ht, List.append_assoc]

theorem countId_insertOrIgnore (db : List DbRow) (row : DbRow)
    (pid : String) (h : countId db pid ≤ 1) :
    countId (insertOrIgnore db row) pid ≤ 1 := by
  unfold insertOrIgnore
  cases hr : row.post_id with
  | none =>
    unfold countId at *
    rw [List.filter_append]
    simp [List.filter, hr]
    exact h
  | some pid2 =>
    dsimp only
    by_cases hany : db.any (fun r => r.post_id == some pid2) = true
    · rw [if_pos hany]
      exact h
    · rw [if_neg hany]
      unfold countId at *
      rw [List.filter_append, List.length_append]
      by_cases hpe : pid2 = pid
      · subst hpe
        have hf : (db.filter (fun r => r.post_id == some pid2)).length = 0 := by
          rw [List.length_eq_zero, List.filter_eq_nil_iff]
          intro a ha
          intro hcontra
          exact hany (List.any_eq_true.mpr ⟨a, ha, hcontra⟩)
        rw [hf]
        simp [List.filter, hr]
      · have hf2 : (([row] : List DbRow).filter
            (fun r => r.post_id == some pid)).length = 0 := by
          have hb : (pid2 == pid) = false := beq_eq_false_iff_ne.mpr hpe
          simp [List.filter, hr, hb]
        rw [hf2]
        omega

theorem savePostsGo_unique :
    ∀ (posts : List PostInput) (db : List DbRow) (n : Nat) (pid : String),
      countId db pid ≤ 1 → countId (savePostsGo db posts n).1 pid ≤ 1 := by
  intro posts
  induction posts with
  | nil => intro db n pid h; exact h
  | cons p rest ih =>
    intro db n pid h
    unfold savePostsGo
    exact ih (insertOrIgnore db (mkRow p)) (n + 1) pid
      (countId_insertOrIgnore db (mkRow p) pid h)

/-- C9 counterexample: saving the same `post_id` twice into an empty
store inserts one row but reports 2 — the reported count is not the
number of records actually inserted. -/
theorem fb_C9_counterexample :
    (save_posts [] [pDupW, pDupW]).2 = 2 ∧
    (save_posts [] [pDupW, pDupW]).1.length = 1 ∧
    (save_posts [] [pDupW, pDupW]).2 ≠
      (save_posts [] [pDupW, pDupW]).1.length := by decide

/-- C9 (amended): `save_posts` deduplicates by `post_id` with
insert-or-ignore semantics — a repeat `post_id` is silently dropped, not
updated (existing rows are only ever appended after, and a non-null
`post_id` stays unique) — but its return value is the number of input
records processed, which counts ignored duplicates. -/
theorem fb_C9_save_posts_amended (db : List DbRow)
    (posts : List PostInput) :
    (save_posts db posts).2 = posts.length ∧
    (∃ added, (save_posts db posts).1 = db ++ added) ∧
    (∀ pid, countId db pid ≤ 1 →
      countId ((save_posts db posts).1) pid ≤ 1) := by
  unfold save_posts
  by_cases hp : posts.isEmpty = true
  · rw [if_pos hp]
    rw [List.isEmpty_iff] at hp
    subst hp
    exact ⟨rfl, ⟨[], by simp⟩, fun pid h => h⟩
  · rw [if_neg hp]
    refine ⟨?_, savePostsGo_suffix posts db 0,
      fun pid h => savePostsGo_unique posts db 0 pid h⟩
    rw [savePostsGo_count]
    omega

/-- Witness for the amended C9 on a singleton input. -/
theorem fb_C9_witness :
    countId [] "w1" ≤ 1 ∧ (save_posts [] [pW]).2 = [pW].length ∧
    countId ((save_posts [] [pW]).1) "w1" ≤ 1 :=
  ⟨by decide, (fb_C9_save_posts_amended [] [pW]).1,
   (fb_C9_save_posts_amended [] [pW]).2.2 "w1" (by decide)⟩

end FacebookScraping
